import Mathlib

/-!
# Verification of the ILI9486 display driver core

Shallow embedding of the driver's data model and operations
(`src/lib.rs`, `src/graphics.rs`) and proofs about them.

Machine integers are modelled as `Nat` (or `Int` for `i32` coordinates)
with explicit `% 2^16` / `% 2^8` reductions exactly where the Rust code
performs a narrowing `as` cast or where `u16` arithmetic may wrap
(release-build wrapping semantics; a debug build would panic at the same
inputs instead, so overflow-free theorems are unaffected).
The fallible bus transport and the reset GPIO pin are modelled as an
environment `Env` that decides, for each external call in order, whether
it succeeds or fails (and with which error).  Every successful external
call is recorded in an event trace, so theorems can speak about exactly
which command and data bytes the driver issues.  Blocking delays produce
no bus traffic and are elided.
-/

deriving instance DecidableEq for Except

namespace ILI9486V

/-- Error kind of the `display_interface` crate (`DisplayError`). -/
inductive DisplayError where
  | InvalidFormatError
  | BusWriteError
  | DCError
  | CSError
  | RSError
  | OutOfBoundsError
  deriving DecidableEq, Repr

/-- Orientation enum from `src/lib.rs`. -/
inductive Orientation where
  | Portrait
  | Landscape
  deriving DecidableEq, Repr

/-- Default orientation is Portrait (`impl Default for Orientation`). -/
def Orientation.default : Orientation := Orientation.Portrait

/-- Flip enum from `src/lib.rs`. -/
inductive Flip where
  | No
  | FlipHorizontal
  | FlipVertical
  | Rotate180
  deriving DecidableEq, Repr

/-- Default flip is No (`impl Default for Flip`). -/
def Flip.default : Flip := Flip.No

/-- DisplayMode struct from `src/lib.rs`. -/
structure DisplayMode where
  orientation : Orientation
  flip : Flip
  inverted_rgb : Bool
  deriving DecidableEq, Repr

/-- Derived `Default` for `DisplayMode`. -/
def DisplayMode.default : DisplayMode :=
  { orientation := Orientation.default, flip := Flip.default, inverted_rgb := false }

/-- Constant `BGR_PIXEL_ORDER: u8 = 1 << 3`. -/
def BGR_PIXEL_ORDER : Nat := 1 <<< 3

/-- Constant `ROW_COLUMN_EXCHANGE: u8 = 1 << 5`. -/
def ROW_COLUMN_EXCHANGE : Nat := 1 <<< 5

/-- Constant `COLUMN_ORDER_SWAP: u8 = 1 << 6`. -/
def COLUMN_ORDER_SWAP : Nat := 1 <<< 6

/-- Constant `ROW_ORDER_SWAP: u8 = 1 << 7`. -/
def ROW_ORDER_SWAP : Nat := 1 <<< 7

/-- Conversion `impl From<DisplayMode> for u8` from `src/lib.rs` (lines
85-102): the control byte sent with the memory-access-control command. -/
def DisplayMode.code (mode : DisplayMode) : Nat :=
  let mode_code : Nat := 0
  let mode_code :=
    if mode.orientation = Orientation.Landscape then
      mode_code ||| ROW_COLUMN_EXCHANGE
    else mode_code
  let mode_code :=
    if mode.inverted_rgb then mode_code ||| BGR_PIXEL_ORDER else mode_code
  let mode_code :=
    match mode.flip with
    | Flip.No => mode_code
    | Flip.FlipHorizontal =>
        mode_code ||| (if mode.orientation = Orientation.Portrait
                       then COLUMN_ORDER_SWAP else ROW_ORDER_SWAP)
    | Flip.FlipVertical =>
        mode_code ||| (if mode.orientation = Orientation.Landscape
                       then COLUMN_ORDER_SWAP else ROW_ORDER_SWAP)
    | Flip.Rotate180 => mode_code ||| (COLUMN_ORDER_SWAP ||| ROW_ORDER_SWAP)
  mode_code

/-- Command opcode enumeration from `src/lib.rs` (the subset of the full
enum that the driver code actually issues; the remaining variants are
never constructed by any function modelled here). -/
inductive Command where
  | Nop
  | SleepOut
  | NormalDisplayMode
  | DisplayInversionOff
  | DisplayOn
  | ColumnAddressSet
  | PageAddressSet
  | MemoryWrite
  | VerticalScrollDefine
  | MemoryAccessControl
  | VerticalScrollAddr
  | IdleModeOff
  | PixelFormatSet
  | InterfaceModeControl
  | DisplayFunctionControl
  | PowerControl1
  | PowerControl2
  | PowerControl3
  | PowerControl4
  | DigitalGammaControl1
  | DigitalGammaControl2
  deriving DecidableEq, Repr

/-- Numeric opcode of each command (`cmd as u8`), values from the
enum discriminants in `src/lib.rs`. -/
def Command.code : Command → Nat
  | Command.Nop => 0x00
  | Command.SleepOut => 0x11
  | Command.NormalDisplayMode => 0x13
  | Command.DisplayInversionOff => 0x20
  | Command.DisplayOn => 0x29
  | Command.ColumnAddressSet => 0x2a
  | Command.PageAddressSet => 0x2b
  | Command.MemoryWrite => 0x2c
  | Command.VerticalScrollDefine => 0x33
  | Command.MemoryAccessControl => 0x36
  | Command.VerticalScrollAddr => 0x37
  | Command.IdleModeOff => 0x38
  | Command.PixelFormatSet => 0x3a
  | Command.InterfaceModeControl => 0xb0
  | Command.DisplayFunctionControl => 0xb6
  | Command.PowerControl1 => 0xc0
  | Command.PowerControl2 => 0xc1
  | Command.PowerControl3 => 0xc2
  | Command.PowerControl4 => 0xc3
  | Command.DigitalGammaControl1 => 0xe2
  | Command.DigitalGammaControl2 => 0xe3

/-- Observable external events: reset-pin transitions, a command byte
sent via `send_commands`, argument bytes sent via `send_data` in `U8Iter`
format, and 16-bit words sent via `send_data` in `U16BEIter` (big-endian)
format. -/
inductive Ev where
  | pinLow
  | pinHigh
  | cmd (b : Nat)
  | data8 (bs : List Nat)
  | data16be (ws : List Nat)
  deriving DecidableEq, Repr

/-- Failure schedule for the external capabilities: for the n-th external
call (0-based), `none` means the call succeeds and `some e` means the
underlying transport/pin call fails (`e` being the error the transport
reports; pin failures are re-mapped by the driver regardless). -/
def Env : Type := Nat → Option DisplayError

/-- Environment in which every external call succeeds. -/
def envOK : Env := fun _ => none

/-- Transport-side state: how many external calls happened so far, and
the trace of successful ones. -/
structure TS where
  cnt : Nat
  trace : List Ev
  deriving DecidableEq, Repr

/-- Initial transport state. -/
def TS.init : TS := { cnt := 0, trace := [] }

/-- Record a successful external call. -/
def TS.push (ts : TS) (e : Ev) : TS := { cnt := ts.cnt + 1, trace := ts.trace ++ [e] }

/-- Record a failed external call (no event emitted). -/
def TS.skip (ts : TS) : TS := { cnt := ts.cnt + 1, trace := ts.trace }

/-- Reset-pin `set_low().map_err(|_| DisplayError::RSError)`. -/
def set_low (env : Env) (ts : TS) : Except DisplayError Unit × TS :=
  match env ts.cnt with
  | none => (Except.ok (), ts.push Ev.pinLow)
  | some _ => (Except.error DisplayError.RSError, ts.skip)

/-- Reset-pin `set_high().map_err(|_| DisplayError::RSError)`. -/
def set_high (env : Env) (ts : TS) : Except DisplayError Unit × TS :=
  match env ts.cnt with
  | none => (Except.ok (), ts.push Ev.pinHigh)
  | some _ => (Except.error DisplayError.RSError, ts.skip)

/-- Transport `send_commands(U8Iter(once(cmd as u8)))`: one fallible call
carrying one opcode byte. -/
def send_commands (env : Env) (ts : TS) (b : Nat) : Except DisplayError Unit × TS :=
  match env ts.cnt with
  | none => (Except.ok (), ts.push (Ev.cmd b))
  | some e => (Except.error e, ts.skip)

/-- Transport `send_data(U8Iter(args))`: one fallible call carrying the
argument bytes. -/
def send_data8 (env : Env) (ts : TS) (bs : List Nat) : Except DisplayError Unit × TS :=
  match env ts.cnt with
  | none => (Except.ok (), ts.push (Ev.data8 bs))
  | some e => (Except.error e, ts.skip)

/-- Transport `send_data(U16BEIter(words))`: one fallible call carrying
16-bit words, serialized big-endian by the transport. -/
def send_data16 (env : Env) (ts : TS) (ws : List Nat) : Except DisplayError Unit × TS :=
  match env ts.cnt with
  | none => (Except.ok (), ts.push (Ev.data16be ws))
  | some e => (Except.error e, ts.skip)

/-- Sequencing of two fallible steps, modelling Rust's `?` operator:
on error, stop and propagate. -/
def seqE {α : Type} (r : Except DisplayError Unit × TS)
    (k : TS → Except DisplayError α × TS) : Except DisplayError α × TS :=
  match r with
  | (Except.ok _, ts) => k ts
  | (Except.error e, ts) => (Except.error e, ts)

/-- Method `command` from `src/lib.rs` (lines 197-200): send the opcode,
then (with `?` in between) the argument bytes. -/
def command (env : Env) (ts : TS) (c : Command) (args : List Nat) :
    Except DisplayError Unit × TS :=
  seqE (send_commands env ts c.code) fun ts => send_data8 env ts args

/-- Method `write_iter` from `src/lib.rs` (lines 202-205): a memory-write
command followed by the pixel words in big-endian 16-bit format. -/
def write_iter (env : Env) (ts : TS) (data : List Nat) :
    Except DisplayError Unit × TS :=
  seqE (command env ts Command.MemoryWrite []) fun ts => send_data16 env ts data

/-- High byte of a `u16`: `(v >> 8) as u8`. -/
def u16hi (v : Nat) : Nat := (v >>> 8) % 256

/-- Low byte of a `u16`: `(v & 0xff) as u8`. -/
def u16lo (v : Nat) : Nat := (v &&& 0xff) % 256

/-- Method `set_window` from `src/lib.rs` (lines 207-226): column-address
command then page-address command, four bytes of arguments each. -/
def set_window (env : Env) (ts : TS) (x0 y0 x1 y1 : Nat) :
    Except DisplayError Unit × TS :=
  seqE (command env ts Command.ColumnAddressSet
        [u16hi x0, u16lo x0, u16hi x1, u16lo x1]) fun ts =>
    command env ts Command.PageAddressSet
        [u16hi y0, u16lo y0, u16hi y1, u16lo y1]

/-- Method `draw_raw_iter` from `src/lib.rs` (lines 280-290):
set the window, then stream the pixel words. -/
def draw_raw_iter (env : Env) (ts : TS) (x0 y0 x1 y1 : Nat) (data : List Nat) :
    Except DisplayError Unit × TS :=
  seqE (set_window env ts x0 y0 x1 y1) fun ts => write_iter env ts data

/-- Method `draw_raw_slice` from `src/lib.rs` (lines 301-303): identical
to `draw_raw_iter` over the slice's elements. -/
def draw_raw_slice (env : Env) (ts : TS) (x0 y0 x1 y1 : Nat) (data : List Nat) :
    Except DisplayError Unit × TS :=
  draw_raw_iter env ts x0 y0 x1 y1 data

/-- Wrapping 16-bit addition (Rust release-build `u16` `+`). -/
def wadd16 (a b : Nat) : Nat := (a + b) % 65536

/-- Wrapping 16-bit subtraction (Rust release-build `u16` `-`). -/
def wsub16 (a b : Nat) : Nat := (a + 65536 - b % 65536) % 65536

/-- Scroller struct from `src/lib.rs` (lines 330-335). -/
structure Scroller where
  top_offset : Nat
  fixed_bottom_lines : Nat
  fixed_top_lines : Nat
  height : Nat
  deriving DecidableEq, Repr

/-- Constructor `Scroller::new` (lines 337-346): the scroll offset starts
at `fixed_top_lines`. -/
def Scroller.new (fixed_top_lines fixed_bottom_lines height : Nat) : Scroller :=
  { top_offset := fixed_top_lines
    fixed_top_lines := fixed_top_lines
    fixed_bottom_lines := fixed_bottom_lines
    height := height }

/-- Device state of `struct ILI9486` (lines 119-125).  The `interface`
and `reset` handles are represented by the `Env`/`TS` transport model,
leaving the stored geometry and mode. -/
structure ILI9486 where
  width : Nat
  height : Nat
  mode : DisplayMode
  deriving DecidableEq, Repr

/-- Method `configure_vertical_scroll` from `src/lib.rs` (lines 229-253):
pick the logical height by orientation (`as u16`), compute the scroll band
length, issue the 6-byte vertical-scroll-define command and return a fresh
`Scroller`. -/
def ILI9486.configure_vertical_scroll (d : ILI9486) (env : Env) (ts : TS)
    (fixed_top_lines fixed_bottom_lines : Nat) :
    Except DisplayError Scroller × TS :=
  let height := (match d.mode.orientation with
    | Orientation.Landscape => d.width
    | Orientation.Portrait => d.height) % 65536
  let scroll_lines := wsub16 (wsub16 height fixed_top_lines) fixed_bottom_lines
  seqE (command env ts Command.VerticalScrollDefine
      [u16hi fixed_top_lines, u16lo fixed_top_lines,
       u16hi scroll_lines, u16lo scroll_lines,
       u16hi fixed_bottom_lines, u16lo fixed_bottom_lines]) fun ts =>
    (Except.ok (Scroller.new fixed_top_lines fixed_bottom_lines height), ts)

/-- Method `scroll_vertically` from `src/lib.rs` (lines 255-269): add the
line count to `top_offset`, wrap once past `height - fixed_bottom_lines`,
then issue the 2-byte vertical-scroll-address command.  The scroller is
mutated before the command is sent, so the updated scroller is returned
even when the transport fails. -/
def ILI9486.scroll_vertically (scroller : Scroller) (num_lines : Nat)
    (env : Env) (ts : TS) : Except DisplayError Unit × Scroller × TS :=
  let scroller := { scroller with
    top_offset := wadd16 scroller.top_offset num_lines }
  let scroller :=
    if wsub16 scroller.height scroller.fixed_bottom_lines < scroller.top_offset then
      { scroller with
        top_offset := wadd16 scroller.fixed_top_lines
          (wsub16 (wadd16 scroller.top_offset scroller.fixed_bottom_lines)
            scroller.height) }
    else scroller
  let r := command env ts Command.VerticalScrollAddr
      [u16hi scroller.top_offset, u16lo scroller.top_offset]
  (r.1, scroller, r.2)

/-- Method `set_display_mode` from `src/lib.rs` (lines 306-313): swap the
stored width and height when the orientation changes, store the new mode,
then issue the memory-access-control command with the encoded mode byte.
The device state is mutated before the command is sent, so the updated
state is returned even when the transport fails. -/
def ILI9486.set_display_mode (d : ILI9486) (mode : DisplayMode)
    (env : Env) (ts : TS) : Except DisplayError Unit × ILI9486 × TS :=
  let d := if d.mode.orientation ≠ mode.orientation
           then { d with width := d.height, height := d.width } else d
  let d := { d with mode := mode }
  let r := command env ts Command.MemoryAccessControl [mode.code]
  (r.1, d, r.2)

/-- Outcome of the constructor: normal return, error return, or a panic
(reached through `.unwrap()` on a failed command). -/
inductive Outcome (α : Type) where
  | ok (a : α)
  | err (e : DisplayError)
  | panicked
  deriving DecidableEq, Repr

/-- Sequencing for the constructor, modelling `?`: on error, return it. -/
def seqO {α : Type} (r : Except DisplayError Unit × TS)
    (k : TS → Outcome α × TS) : Outcome α × TS :=
  match r with
  | (Except.ok _, ts) => k ts
  | (Except.error e, ts) => (Outcome.err e, ts)

/-- Sequencing modelling `.unwrap()`: on error, panic. -/
def unwrapO {α : Type} (r : Except DisplayError Unit × TS)
    (k : TS → Outcome α × TS) : Outcome α × TS :=
  match r with
  | (Except.ok _, ts) => k ts
  | (Except.error _, ts) => (Outcome.panicked, ts)

/-- Method `reset` from `src/lib.rs` (lines 132-139): drive the reset pin
low then high, mapping pin failures to `RSError` (delays elided). -/
def ILI9486.hwreset (env : Env) (ts : TS) : Except DisplayError Unit × TS :=
  seqE (set_low env ts) fun ts => set_high env ts

/-- Constructor `ILI9486::new` from `src/lib.rs` (lines 141-189): build
the state from the compile-time size and default mode, hardware-reset,
then run the fixed initialization command sequence.  The first two
commands are followed by `.unwrap()` in the source (panic on failure);
all the others use `?`. -/
def ILI9486.new (env : Env) (ts : TS) (display_mode : DisplayMode)
    (WIDTH HEIGHT : Nat) : Outcome ILI9486 × TS :=
  let dev : ILI9486 := { width := WIDTH, height := HEIGHT, mode := DisplayMode.default }
  seqO (ILI9486.hwreset env ts) fun ts =>
  unwrapO (command env ts Command.InterfaceModeControl [0x00]) fun ts =>
  unwrapO (command env ts Command.SleepOut []) fun ts =>
  seqO (command env ts Command.PixelFormatSet [0x55]) fun ts =>
  seqO (command env ts Command.DisplayInversionOff []) fun ts =>
  seqO (command env ts Command.PowerControl1 [0x09, 0x09]) fun ts =>
  seqO (command env ts Command.PowerControl2 [0x41, 0x00]) fun ts =>
  seqO (command env ts Command.PowerControl3 [0x33]) fun ts =>
  seqO (command env ts Command.PowerControl4 [0x00, 0x36]) fun ts =>
  match ILI9486.set_display_mode dev display_mode env ts with
  | (Except.error e, _, ts) => (Outcome.err e, ts)
  | (Except.ok _, dev, ts) =>
  seqO (command env ts Command.DigitalGammaControl1
    [0x00, 0x2C, 0x2C, 0x0B, 0x0C, 0x04, 0x4C, 0x64,
     0x36, 0x03, 0x0E, 0x01, 0x10, 0x01, 0x00]) fun ts =>
  seqO (command env ts Command.DigitalGammaControl2
    [0x0F, 0x37, 0x37, 0x0C, 0x0F, 0x05, 0x50, 0x32,
     0x36, 0x04, 0x0B, 0x00, 0x19, 0x14, 0x0F]) fun ts =>
  seqO (command env ts Command.DisplayFunctionControl [0, 2, 59]) fun ts =>
  seqO (command env ts Command.SleepOut []) fun ts =>
  seqO (command env ts Command.DisplayOn []) fun ts =>
  seqO (command env ts Command.IdleModeOff []) fun ts =>
  seqO (command env ts Command.NormalDisplayMode []) fun ts =>
  (Outcome.ok dev, ts)

/-- Cast `usize as i32` (two's-complement truncation to 32 bits). -/
def natToI32 (n : Nat) : Int :=
  let m := n % 4294967296
  if m < 2147483648 then (m : Int) else (m : Int) - 4294967296

/-- Cast `i32 as u16` (two's-complement truncation to 16 bits). -/
def i32ToU16 (v : Int) : Nat := (v % 65536).toNat

/-- Point of the `embedded-graphics` crate: a pair of `i32` coordinates. -/
structure Point where
  x : Int
  y : Int
  deriving DecidableEq, Repr

/-- Adapter method `draw_pixel` from `src/graphics.rs` (lines 27-41):
silently succeed when the point is out of bounds, otherwise draw a 1x1
window holding the single color value. -/
def ILI9486.draw_pixel (d : ILI9486) (env : Env) (ts : TS)
    (pos : Point) (color : Nat) : Except DisplayError Unit × TS :=
  if pos.x < 0 ∨ pos.y < 0 ∨ natToI32 d.width ≤ pos.x ∨ natToI32 d.height ≤ pos.y then
    (Except.ok (), ts)
  else
    draw_raw_slice env ts (i32ToU16 pos.x) (i32ToU16 pos.y)
      (i32ToU16 pos.x) (i32ToU16 pos.y) [color]

/-- Local `clamp` function inside `draw_rectangle` (`src/graphics.rs`
lines 54-62). -/
def clamp (v max : Int) : Nat :=
  if v < 0 then 0
  else if max < v then i32ToU16 max
  else i32ToU16 v

/-- Adapter method `draw_rectangle` from `src/graphics.rs` (lines 43-79).
The styled rectangle's pixel iterator (supplied by the external
`embedded-graphics` crate) is abstracted as the list `stylePixels` of
point/color pairs, colors already converted to their raw `u16` values. -/
def ILI9486.draw_rectangle (d : ILI9486) (env : Env) (ts : TS)
    (top_left bottom_right : Point) (stylePixels : List (Point × Nat)) :
    Except DisplayError Unit × TS :=
  let w := natToI32 d.width
  let h := natToI32 d.height
  if w ≤ top_left.x ∨ h ≤ top_left.y then (Except.ok (), ts)
  else
    let x0 := clamp top_left.x (w - 1)
    let y0 := clamp top_left.y (h - 1)
    let x1 := clamp bottom_right.x (w - 1)
    let y1 := clamp bottom_right.y (h - 1)
    draw_raw_iter env ts x0 y0 x1 y1
      ((stylePixels.filter fun p =>
          decide (0 ≤ p.1.x ∧ 0 ≤ p.1.y ∧ p.1.x < w ∧ p.1.y < h)).map
        fun p => p.2)

/-- Adapter method `clear` from `src/graphics.rs` (lines 81-91): one
full-screen window, then `width * height` copies of the color. -/
def ILI9486.clear (d : ILI9486) (env : Env) (ts : TS) (color : Nat) :
    Except DisplayError Unit × TS :=
  draw_raw_iter env ts 0 0 ((d.width - 1) % 65536) ((d.height - 1) % 65536)
    (List.replicate (d.width * d.height) color)

/-- Iterated scrolling: fold `scroll_vertically` over a list of advance
counts, threading the mutated scroller and the transport state. -/
def scrollMany (env : Env) (p : Scroller × TS) (l : List Nat) : Scroller × TS :=
  l.foldl (fun p n =>
    let r := ILI9486.scroll_vertically p.1 n env p.2
    (r.2.1, r.2.2)) p

/-- Environment in which every external call fails with a bus error. -/
def envFailAll : Env := fun _ => some DisplayError.BusWriteError

/-- Environment in which exactly the k-th external call fails (so the
first transport failure happens at position k). -/
def envFailAt (k : Nat) : Env :=
  fun i => if i = k then some DisplayError.BusWriteError else none

/-- Clamping of one coordinate as the specification words it: negative
becomes 0, above the maximum becomes the maximum, anything else is kept. -/
def specClamp (v hi : Int) : Nat :=
  (if v < 0 then 0 else if hi < v then hi else v).toNat

end ILI9486V

namespace ILI9486V

theorem u16hi_eq (v : Nat) (h : v < 65536) : u16hi v = v / 256 := by
  have hs : v >>> 8 = v / 256 := Nat.shiftRight_eq_div_pow v 8
  simp only [u16hi, hs]
  exact Nat.mod_eq_of_lt (by omega)

theorem u16lo_eq (v : Nat) : u16lo v = v % 256 := by
  have h : v &&& 255 = v % 256 := Nat.and_pow_two_sub_one_eq_mod v 8
  simp only [u16lo, h]
  omega

theorem natToI32_eq (n : Nat) (h : n < 2147483648) : natToI32 n = (n : Int) := by
  simp only [natToI32]
  rw [Nat.mod_eq_of_lt (by omega)]
  simp [h]

theorem i32ToU16_eq (v : Int) (h0 : 0 ≤ v) (h1 : v < 65536) :
    i32ToU16 v = v.toNat := by
  simp only [i32ToU16]
  rw [Int.emod_eq_of_lt h0 h1]

theorem command_envOK (ts : TS) (c : Command) (args : List Nat) :
    command envOK ts c args =
      (Except.ok (), ⟨ts.cnt + 2,
        ts.trace ++ [Ev.cmd c.code, Ev.data8 args]⟩) := by
  simp [command, send_commands, send_data8, envOK, seqE, TS.push]

theorem write_iter_envOK (ts : TS) (data : List Nat) :
    write_iter envOK ts data =
      (Except.ok (), ⟨ts.cnt + 3,
        ts.trace ++ [Ev.cmd 0x2c, Ev.data8 [], Ev.data16be data]⟩) := by
  simp [write_iter, command_envOK, seqE, send_data16, envOK, TS.push, Command.code]

theorem set_window_envOK (ts : TS) (x0 y0 x1 y1 : Nat) :
    set_window envOK ts x0 y0 x1 y1 =
      (Except.ok (), ⟨ts.cnt + 4,
        ts.trace ++
          [Ev.cmd 0x2a, Ev.data8 [u16hi x0, u16lo x0, u16hi x1, u16lo x1],
           Ev.cmd 0x2b, Ev.data8 [u16hi y0, u16lo y0, u16hi y1, u16lo y1]]⟩) := by
  simp [set_window, command_envOK, seqE, Command.code]

theorem draw_raw_iter_envOK (ts : TS) (x0 y0 x1 y1 : Nat) (data : List Nat) :
    draw_raw_iter envOK ts x0 y0 x1 y1 data =
      (Except.ok (), ⟨ts.cnt + 7,
        ts.trace ++
          [Ev.cmd 0x2a, Ev.data8 [u16hi x0, u16lo x0, u16hi x1, u16lo x1],
           Ev.cmd 0x2b, Ev.data8 [u16hi y0, u16lo y0, u16hi y1, u16lo y1],
           Ev.cmd 0x2c, Ev.data8 [], Ev.data16be data]⟩) := by
  simp [draw_raw_iter, set_window_envOK, write_iter_envOK, seqE]

end ILI9486V

namespace ILI9486V

/-- C1: for every `DisplayMode` value, the control byte produced by the
`DisplayMode`-to-`u8` conversion is deterministic (a pure function) and its
bits satisfy: bit 5 iff Landscape; bit 3 iff inverted_rgb; Rotate180 sets
bits 6 and 7; FlipHorizontal sets bit 6 (clearing 7) in Portrait and bit 7
(clearing 6) in Landscape; FlipVertical is the mirror; No clears both. -/
theorem displayMode_code_bits (m : DisplayMode) :
    (Nat.testBit m.code 5 ↔ m.orientation = Orientation.Landscape) ∧
    (Nat.testBit m.code 3 ↔ m.inverted_rgb = true) ∧
    (m.flip = Flip.Rotate180 →
      Nat.testBit m.code 6 = true ∧ Nat.testBit m.code 7 = true) ∧
    (m.flip = Flip.FlipHorizontal →
      (m.orientation = Orientation.Portrait →
        Nat.testBit m.code 6 = true ∧ Nat.testBit m.code 7 = false) ∧
      (m.orientation = Orientation.Landscape →
        Nat.testBit m.code 7 = true ∧ Nat.testBit m.code 6 = false)) ∧
    (m.flip = Flip.FlipVertical →
      (m.orientation = Orientation.Portrait →
        Nat.testBit m.code 7 = true ∧ Nat.testBit m.code 6 = false) ∧
      (m.orientation = Orientation.Landscape →
        Nat.testBit m.code 6 = true ∧ Nat.testBit m.code 7 = false)) ∧
    (m.flip = Flip.No →
      Nat.testBit m.code 6 = false ∧ Nat.testBit m.code 7 = false) := by
  obtain ⟨o, f, i⟩ := m
  cases o <;> cases f <;> cases i <;> decide

/-- Witness for C1 at a concrete mode (Landscape, Rotate180, inverted). -/
theorem displayMode_code_bits_witness :
    Nat.testBit (DisplayMode.code
      ⟨Orientation.Landscape, Flip.Rotate180, true⟩) 6 = true ∧
    Nat.testBit (DisplayMode.code
      ⟨Orientation.Landscape, Flip.Rotate180, true⟩) 7 = true :=
  (displayMode_code_bits
    ⟨Orientation.Landscape, Flip.Rotate180, true⟩).2.2.1 rfl

/-- C5: for every device state and mode argument, `set_display_mode`
swaps the stored width and height exactly when the argument's orientation
differs from the stored one (so a repeated call with the same orientation
does not swap again), stores the new mode — all of this independently of
the transport — and, when the transport works, issues exactly one
memory-access-control command carrying the encoded mode byte, even when
only flip or color order changed. -/
theorem set_display_mode_spec (d : ILI9486) (m : DisplayMode) (env : Env)
    (ts : TS) :
    (ILI9486.set_display_mode d m env ts).2.1.width =
      (if d.mode.orientation = m.orientation then d.width else d.height) ∧
    (ILI9486.set_display_mode d m env ts).2.1.height =
      (if d.mode.orientation = m.orientation then d.height else d.width) ∧
    (ILI9486.set_display_mode d m env ts).2.1.mode = m ∧
    (ILI9486.set_display_mode d m envOK ts).2.2.trace =
      ts.trace ++ [Ev.cmd 0x36, Ev.data8 [m.code]] ∧
    (ILI9486.set_display_mode d m envOK ts).1 = Except.ok () := by
  by_cases h : d.mode.orientation = m.orientation <;>
    simp [ILI9486.set_display_mode, command_envOK, h, Command.code]

/-- C10: `set_display_mode` is not atomic on error: the stored mode and
the (possibly swapped) width and height are updated before the
memory-access-control command is sent, so when the transport fails the
call returns the transport error while the in-memory state already holds
the new values (and nothing was emitted on the bus). -/
theorem set_display_mode_not_atomic (d : ILI9486) (m : DisplayMode) (ts : TS) :
    (ILI9486.set_display_mode d m envFailAll ts).1 =
      Except.error DisplayError.BusWriteError ∧
    (ILI9486.set_display_mode d m envFailAll ts).2.2.trace = ts.trace ∧
    (ILI9486.set_display_mode d m envFailAll ts).2.1.mode = m ∧
    (ILI9486.set_display_mode d m envFailAll ts).2.1.width =
      (if d.mode.orientation = m.orientation then d.width else d.height) ∧
    (ILI9486.set_display_mode d m envFailAll ts).2.1.height =
      (if d.mode.orientation = m.orientation then d.height else d.width) := by
  by_cases h : d.mode.orientation = m.orientation <;>
    simp [ILI9486.set_display_mode, command, send_commands, envFailAll, seqE,
      TS.skip, h]

theorem draw_raw_iter_bytes (ts : TS) (x0 y0 x1 y1 : Nat)
    (data : List Nat) (hx0 : x0 < 65536) (hy0 : y0 < 65536)
    (hx1 : x1 < 65536) (hy1 : y1 < 65536) :
    draw_raw_iter envOK ts x0 y0 x1 y1 data =
      (Except.ok (), ⟨ts.cnt + 7,
        ts.trace ++
          [Ev.cmd 0x2a, Ev.data8 [x0 / 256, x0 % 256, x1 / 256, x1 % 256],
           Ev.cmd 0x2b, Ev.data8 [y0 / 256, y0 % 256, y1 / 256, y1 % 256],
           Ev.cmd 0x2c, Ev.data8 [], Ev.data16be data]⟩) := by
  rw [draw_raw_iter_envOK, u16hi_eq x0 hx0, u16hi_eq x1 hx1, u16hi_eq y0 hy0,
    u16hi_eq y1 hy1, u16lo_eq x0, u16lo_eq x1, u16lo_eq y0, u16lo_eq y1]

/-- C9: `draw_raw_iter` (that is, `set_window` followed by `write_iter`)
issues, without clamping or validating the bounds, exactly a
column-address-set command with bytes x0-high, x0-low, x1-high, x1-low,
a page-address-set command with the same byte layout for y, a
memory-write command with no argument bytes, and then the caller's
16-bit words verbatim, in order, big-endian, with no count enforcement. -/
theorem draw_raw_iter_protocol (ts : TS) (x0 y0 x1 y1 : Nat)
    (data : List Nat) (hx0 : x0 < 65536) (hy0 : y0 < 65536)
    (hx1 : x1 < 65536) (hy1 : y1 < 65536) :
    draw_raw_iter envOK ts x0 y0 x1 y1 data =
      (Except.ok (), ⟨ts.cnt + 7,
        ts.trace ++
          [Ev.cmd 0x2a, Ev.data8 [x0 / 256, x0 % 256, x1 / 256, x1 % 256],
           Ev.cmd 0x2b, Ev.data8 [y0 / 256, y0 % 256, y1 / 256, y1 % 256],
           Ev.cmd 0x2c, Ev.data8 [], Ev.data16be data]⟩) :=
  draw_raw_iter_bytes ts x0 y0 x1 y1 data hx0 hy0 hx1 hy1

/-- Witness for C9: a concrete window whose data stream is deliberately
shorter than the window area, passed through verbatim. -/
theorem draw_raw_iter_protocol_witness :
    draw_raw_iter envOK TS.init 300 1 319 479 [7, 8, 9] =
      (Except.ok (), ⟨7,
        [Ev.cmd 0x2a, Ev.data8 [1, 44, 1, 63],
         Ev.cmd 0x2b, Ev.data8 [0, 1, 1, 223],
         Ev.cmd 0x2c, Ev.data8 [], Ev.data16be [7, 8, 9]]⟩) := by
  have h := draw_raw_iter_protocol TS.init 300 1 319 479 [7, 8, 9]
    (by decide) (by decide) (by decide) (by decide)
  simpa [TS.init] using h

/-- C2 (code bug): if the transport first fails at the very first
`send_commands` call of the initialization sequence (external call index
2, the interface-mode-control opcode, after the two reset-pin calls) the
constructor panics through `.unwrap()` instead of returning the error;
likewise at call index 4 (the first sleep-out command).  From the
pixel-format command onwards (index 6) the `?` operator is used and the
transport error is returned, with no commands issued after the failing
one. -/
theorem new_unwrap_panics :
    (ILI9486.new (envFailAt 2) TS.init DisplayMode.default 320 480).1 =
      Outcome.panicked ∧
    (ILI9486.new (envFailAt 2) TS.init DisplayMode.default 320 480).2.trace =
      [Ev.pinLow, Ev.pinHigh] ∧
    (ILI9486.new (envFailAt 4) TS.init DisplayMode.default 320 480).1 =
      Outcome.panicked ∧
    (ILI9486.new (envFailAt 6) TS.init DisplayMode.default 320 480).1 =
      Outcome.err DisplayError.BusWriteError ∧
    (ILI9486.new (envFailAt 6) TS.init DisplayMode.default 320 480).2.trace =
      [Ev.pinLow, Ev.pinHigh, Ev.cmd 0xb0, Ev.data8 [0x00],
       Ev.cmd 0x11, Ev.data8 []] := by
  decide

/-- C6: `draw_pixel` at any point outside the screen returns success and
performs zero transport calls; at any in-bounds point (including the
corners) it sets exactly one 1x1 window — a column-address and a
page-address command of four argument bytes each — and streams exactly
one 16-bit color value. -/
theorem draw_pixel_spec (d : ILI9486) (ts : TS) (pos : Point) (color : Nat)
    (hw : d.width ≤ 65535) (hh : d.height ≤ 65535) :
    ((pos.x < 0 ∨ pos.y < 0 ∨ (d.width : Int) ≤ pos.x ∨
        (d.height : Int) ≤ pos.y) →
      ILI9486.draw_pixel d envOK ts pos color = (Except.ok (), ts)) ∧
    (0 ≤ pos.x → 0 ≤ pos.y → pos.x < (d.width : Int) →
        pos.y < (d.height : Int) →
      ILI9486.draw_pixel d envOK ts pos color =
        (Except.ok (), ⟨ts.cnt + 7,
          ts.trace ++
            [Ev.cmd 0x2a, Ev.data8 [pos.x.toNat / 256, pos.x.toNat % 256,
                                    pos.x.toNat / 256, pos.x.toNat % 256],
             Ev.cmd 0x2b, Ev.data8 [pos.y.toNat / 256, pos.y.toNat % 256,
                                    pos.y.toNat / 256, pos.y.toNat % 256],
             Ev.cmd 0x2c, Ev.data8 [], Ev.data16be [color]]⟩)) := by
  have hwi : natToI32 d.width = (d.width : Int) := natToI32_eq _ (by omega)
  have hhi : natToI32 d.height = (d.height : Int) := natToI32_eq _ (by omega)
  constructor
  · intro h
    simp only [ILI9486.draw_pixel, hwi, hhi]
    rw [if_pos h]
  · intro h1 h2 h3 h4
    have hx : i32ToU16 pos.x = pos.x.toNat := i32ToU16_eq _ h1 (by omega)
    have hy : i32ToU16 pos.y = pos.y.toNat := i32ToU16_eq _ h2 (by omega)
    simp only [ILI9486.draw_pixel, hwi, hhi]
    split_ifs with hc
    · exfalso; omega
    · simp only [draw_raw_slice, hx, hy]
      exact draw_raw_iter_bytes ts _ _ _ _ [color]
        (by omega) (by omega) (by omega) (by omega)

/-- Witness for C6: on a 320x480 screen, a point left of the screen
draws nothing, and the two corners (0,0) and (319,479) each produce one
1x1 window and one streamed color. -/
theorem draw_pixel_spec_witness :
    ILI9486.draw_pixel ⟨320, 480, DisplayMode.default⟩ envOK TS.init
      ⟨-1, 0⟩ 5 = (Except.ok (), TS.init) ∧
    ILI9486.draw_pixel ⟨320, 480, DisplayMode.default⟩ envOK TS.init
      ⟨0, 0⟩ 5 =
      (Except.ok (), ⟨7,
        [Ev.cmd 0x2a, Ev.data8 [0, 0, 0, 0],
         Ev.cmd 0x2b, Ev.data8 [0, 0, 0, 0],
         Ev.cmd 0x2c, Ev.data8 [], Ev.data16be [5]]⟩) ∧
    ILI9486.draw_pixel ⟨320, 480, DisplayMode.default⟩ envOK TS.init
      ⟨319, 479⟩ 5 =
      (Except.ok (), ⟨7,
        [Ev.cmd 0x2a, Ev.data8 [1, 63, 1, 63],
         Ev.cmd 0x2b, Ev.data8 [1, 223, 1, 223],
         Ev.cmd 0x2c, Ev.data8 [], Ev.data16be [5]]⟩) := by
  refine ⟨?_, ?_, ?_⟩
  · exact (draw_pixel_spec ⟨320, 480, DisplayMode.default⟩ TS.init ⟨-1, 0⟩ 5
      (by norm_num) (by norm_num)).1 (Or.inl (by norm_num))
  · have h := (draw_pixel_spec ⟨320, 480, DisplayMode.default⟩ TS.init
      ⟨0, 0⟩ 5 (by norm_num) (by norm_num)).2
      (by norm_num) (by norm_num) (by norm_num) (by norm_num)
    exact h.trans (by decide)
  · have h := (draw_pixel_spec ⟨320, 480, DisplayMode.default⟩ TS.init
      ⟨319, 479⟩ 5 (by norm_num) (by norm_num)).2
      (by norm_num) (by norm_num) (by norm_num) (by norm_num)
    exact h.trans (by decide)

theorem specClamp_lt (v hi : Int) (h1 : hi < 65536) : specClamp v hi < 65536 := by
  simp only [specClamp]
  split_ifs <;> omega

theorem clamp_eq (v hi : Int) (h0 : 0 ≤ hi) (h1 : hi < 65536) :
    clamp v hi = specClamp v hi := by
  simp only [clamp, specClamp]
  split_ifs with hv hv2
  · rfl
  · exact i32ToU16_eq hi h0 h1
  · exact i32ToU16_eq v (by omega) (by omega)

/-- C7: `draw_rectangle` early-returns success with zero transport calls
when the un-clamped top-left is at or beyond the screen bounds; otherwise
it clamps each of the four corner coordinates independently into
[0, width-1] x [0, height-1] (negative to 0, over-max to max, else
unchanged), sets the clamped window, and streams exactly the colors of
the style's pixels after dropping the still-out-of-bounds points. -/
theorem draw_rectangle_spec (d : ILI9486) (ts : TS) (tl br : Point)
    (ps : List (Point × Nat)) (hw0 : 0 < d.width) (hw : d.width ≤ 65535)
    (hh0 : 0 < d.height) (hh : d.height ≤ 65535) :
    (((d.width : Int) ≤ tl.x ∨ (d.height : Int) ≤ tl.y) →
      ILI9486.draw_rectangle d envOK ts tl br ps = (Except.ok (), ts)) ∧
    (tl.x < (d.width : Int) → tl.y < (d.height : Int) →
      ILI9486.draw_rectangle d envOK ts tl br ps =
        (Except.ok (), ⟨ts.cnt + 7,
          ts.trace ++
            [Ev.cmd 0x2a, Ev.data8
               [specClamp tl.x ((d.width : Int) - 1) / 256,
                specClamp tl.x ((d.width : Int) - 1) % 256,
                specClamp br.x ((d.width : Int) - 1) / 256,
                specClamp br.x ((d.width : Int) - 1) % 256],
             Ev.cmd 0x2b, Ev.data8
               [specClamp tl.y ((d.height : Int) - 1) / 256,
                specClamp tl.y ((d.height : Int) - 1) % 256,
                specClamp br.y ((d.height : Int) - 1) / 256,
                specClamp br.y ((d.height : Int) - 1) % 256],
             Ev.cmd 0x2c, Ev.data8 [],
             Ev.data16be ((ps.filter fun p =>
               decide (0 ≤ p.1.x ∧ 0 ≤ p.1.y ∧ p.1.x < (d.width : Int) ∧
                 p.1.y < (d.height : Int))).map fun p => p.2)]⟩)) := by
  have hwi : natToI32 d.width = (d.width : Int) := natToI32_eq _ (by omega)
  have hhi : natToI32 d.height = (d.height : Int) := natToI32_eq _ (by omega)
  constructor
  · intro h
    simp only [ILI9486.draw_rectangle, hwi, hhi]
    rw [if_pos h]
  · intro h1 h2
    simp only [ILI9486.draw_rectangle, hwi, hhi]
    split_ifs with hc
    · exfalso; omega
    · rw [clamp_eq tl.x _ (by omega) (by omega),
        clamp_eq tl.y _ (by omega) (by omega),
        clamp_eq br.x _ (by omega) (by omega),
        clamp_eq br.y _ (by omega) (by omega)]
      exact draw_raw_iter_bytes ts _ _ _ _ _
        (specClamp_lt _ _ (by omega)) (specClamp_lt _ _ (by omega))
        (specClamp_lt _ _ (by omega)) (specClamp_lt _ _ (by omega))

/-- Witness for C7: a rectangle whose top-left is at (width, 0) draws
nothing, and the rectangle (-5,-5)-(325,485) on a 320x480 screen clamps
to the full screen (0,0)-(319,479) and streams the style's in-bounds
colors only. -/
theorem draw_rectangle_spec_witness :
    ILI9486.draw_rectangle ⟨320, 480, DisplayMode.default⟩ envOK TS.init
      ⟨320, 0⟩ ⟨330, 10⟩ [(⟨321, 1⟩, 3)] = (Except.ok (), TS.init) ∧
    ILI9486.draw_rectangle ⟨320, 480, DisplayMode.default⟩ envOK TS.init
      ⟨-5, -5⟩ ⟨325, 485⟩
      [(⟨0, 0⟩, 9), (⟨-1, 3⟩, 8), (⟨319, 479⟩, 7), (⟨500, 2⟩, 6)] =
      (Except.ok (), ⟨7,
        [Ev.cmd 0x2a, Ev.data8 [0, 0, 1, 63],
         Ev.cmd 0x2b, Ev.data8 [0, 0, 1, 223],
         Ev.cmd 0x2c, Ev.data8 [], Ev.data16be [9, 7]]⟩) := by
  constructor
  · exact (draw_rectangle_spec ⟨320, 480, DisplayMode.default⟩ TS.init
      ⟨320, 0⟩ ⟨330, 10⟩ [(⟨321, 1⟩, 3)]
      (by norm_num) (by norm_num) (by norm_num) (by norm_num)).1
      (Or.inl (by norm_num))
  · have h := (draw_rectangle_spec ⟨320, 480, DisplayMode.default⟩ TS.init
      ⟨-5, -5⟩ ⟨325, 485⟩
      [(⟨0, 0⟩, 9), (⟨-1, 3⟩, 8), (⟨319, 479⟩, 7), (⟨500, 2⟩, 6)]
      (by norm_num) (by norm_num) (by norm_num) (by norm_num)).2
      (by norm_num) (by norm_num)
    exact h.trans (by decide)

/-- C8: `clear` sets the full-screen window (0,0)-(width-1,height-1)
exactly once and then streams exactly width*height copies of the same
16-bit color value. -/
theorem clear_spec (d : ILI9486) (ts : TS) (color : Nat)
    (hw0 : 0 < d.width) (hw : d.width ≤ 65536)
    (hh0 : 0 < d.height) (hh : d.height ≤ 65536) :
    ILI9486.clear d envOK ts color =
      (Except.ok (), ⟨ts.cnt + 7,
        ts.trace ++
          [Ev.cmd 0x2a,
           Ev.data8 [0, 0, (d.width - 1) / 256, (d.width - 1) % 256],
           Ev.cmd 0x2b,
           Ev.data8 [0, 0, (d.height - 1) / 256, (d.height - 1) % 256],
           Ev.cmd 0x2c, Ev.data8 [],
           Ev.data16be (List.replicate (d.width * d.height) color)]⟩) := by
  have h1 : (d.width - 1) % 65536 = d.width - 1 := Nat.mod_eq_of_lt (by omega)
  have h2 : (d.height - 1) % 65536 = d.height - 1 := Nat.mod_eq_of_lt (by omega)
  simp only [ILI9486.clear, h1, h2]
  rw [draw_raw_iter_bytes ts _ _ _ _ _
    (by omega) (by omega) (by omega) (by omega)]

/-- Witness for C8: clearing a 2x3 screen streams six copies of the
color after one full-screen window set. -/
theorem clear_spec_witness :
    ILI9486.clear ⟨2, 3, DisplayMode.default⟩ envOK TS.init 77 =
      (Except.ok (), ⟨7,
        [Ev.cmd 0x2a, Ev.data8 [0, 0, 0, 1],
         Ev.cmd 0x2b, Ev.data8 [0, 0, 0, 2],
         Ev.cmd 0x2c, Ev.data8 [],
         Ev.data16be (List.replicate 6 77)]⟩) := by
  have h := clear_spec ⟨2, 3, DisplayMode.default⟩ TS.init 77
    (by norm_num) (by norm_num) (by norm_num) (by norm_num)
  exact h.trans (by decide)

theorem scroll_step_preserves (s : Scroller) (n : Nat) (env : Env) (ts : TS)
    (hwf : s.fixed_top_lines + s.fixed_bottom_lines ≤ s.height)
    (hh : s.height ≤ 32767)
    (hn : n ≤ s.height - s.fixed_bottom_lines - s.fixed_top_lines)
    (hlo : s.fixed_top_lines ≤ s.top_offset)
    (hhi : s.top_offset ≤ s.height - s.fixed_bottom_lines) :
    (ILI9486.scroll_vertically s n env ts).2.1.fixed_top_lines =
      s.fixed_top_lines ∧
    (ILI9486.scroll_vertically s n env ts).2.1.fixed_bottom_lines =
      s.fixed_bottom_lines ∧
    (ILI9486.scroll_vertically s n env ts).2.1.height = s.height ∧
    s.fixed_top_lines ≤ (ILI9486.scroll_vertically s n env ts).2.1.top_offset ∧
    (ILI9486.scroll_vertically s n env ts).2.1.top_offset ≤
      s.height - s.fixed_bottom_lines := by
  obtain ⟨t, fb, ft, h⟩ := s
  simp only [ILI9486.scroll_vertically, wadd16, wsub16] at *
  split_ifs with hc <;> refine ⟨rfl, rfl, rfl, ?_, ?_⟩ <;> simp only [] <;> omega

theorem scrollMany_invariant (env : Env) (l : List Nat) :
    ∀ (s : Scroller) (ts : TS),
      s.fixed_top_lines + s.fixed_bottom_lines ≤ s.height →
      s.height ≤ 32767 →
      (∀ n ∈ l, n ≤ s.height - s.fixed_bottom_lines - s.fixed_top_lines) →
      s.fixed_top_lines ≤ s.top_offset →
      s.top_offset ≤ s.height - s.fixed_bottom_lines →
      (scrollMany env (s, ts) l).1.fixed_top_lines = s.fixed_top_lines ∧
      (scrollMany env (s, ts) l).1.fixed_bottom_lines = s.fixed_bottom_lines ∧
      (scrollMany env (s, ts) l).1.height = s.height ∧
      s.fixed_top_lines ≤ (scrollMany env (s, ts) l).1.top_offset ∧
      (scrollMany env (s, ts) l).1.top_offset ≤
        s.height - s.fixed_bottom_lines := by
  induction l with
  | nil =>
    intro s ts h1 h2 h3 h4 h5
    exact ⟨rfl, rfl, rfl, h4, h5⟩
  | cons a l ih =>
    intro s ts h1 h2 h3 h4 h5
    obtain ⟨e1, e2, e3, b1, b2⟩ :=
      scroll_step_preserves s a env ts h1 h2 (h3 a (List.mem_cons_self a l)) h4 h5
    have hrec := ih (ILI9486.scroll_vertically s a env ts).2.1
      (ILI9486.scroll_vertically s a env ts).2.2
      (by rw [e1, e2, e3]; exact h1) (by rw [e3]; exact h2)
      (by intro n hn; rw [e3, e2, e1]; exact h3 n (List.mem_cons_of_mem a hn))
      (by rw [e1]; exact b1) (by rw [e3, e2]; exact b2)
    obtain ⟨f1, f2, f3, c1, c2⟩ := hrec
    have hfold : scrollMany env (s, ts) (a :: l) =
        scrollMany env ((ILI9486.scroll_vertically s a env ts).2.1,
          (ILI9486.scroll_vertically s a env ts).2.2) l := rfl
    rw [hfold]
    refine ⟨f1.trans e1, f2.trans e2, f3.trans e3, ?_, ?_⟩
    · rw [← e1]; exact c1
    · rw [← e3, ← e2]; exact c2

/-- C3 counterexample: on a Portrait 240x320 device,
`configure_vertical_scroll 0 0` yields the scroller with
`top_offset = 0`, `height = 320`; a single `scroll_vertically` by 1000
lines leaves `top_offset = 680`, which violates
`top_offset ≤ height - fixed_bottom_lines = 320`: the wrap logic wraps
only once, so a large enough advance escapes the band. -/
theorem scroller_invariant_counterexample :
    (ILI9486.configure_vertical_scroll ⟨240, 320, DisplayMode.default⟩
      envOK TS.init 0 0).1 = Except.ok (Scroller.new 0 0 320) ∧
    (ILI9486.scroll_vertically (Scroller.new 0 0 320) 1000
      envOK TS.init).2.1.top_offset = 680 ∧
    ¬(680 ≤ 320 - (0 : Nat)) := by decide

/-- C3 (amended): for every scroller produced as `Scroller::new ft fb h`
(which is what `configure_vertical_scroll ft fb` returns, `h` being the
current logical height) with a well-formed band (`ft + fb ≤ h`,
`h ≤ 32767`), and every sequence of `scroll_vertically` calls EACH
ADVANCING BY AT MOST THE SCROLL BAND LENGTH `h - fb - ft`, after each
call the invariant `ft ≤ top_offset ≤ h - fb` holds (for unbounded
advance counts the single wrap is insufficient, see the
counterexample). -/
theorem scroller_invariant (ft fb h : Nat) (l : List Nat) (env : Env)
    (ts : TS) (hwf : ft + fb ≤ h) (hh : h ≤ 32767)
    (hl : ∀ n ∈ l, n ≤ h - fb - ft) :
    ft ≤ (scrollMany env (Scroller.new ft fb h, ts) l).1.top_offset ∧
    (scrollMany env (Scroller.new ft fb h, ts) l).1.top_offset ≤ h - fb := by
  have := scrollMany_invariant env l (Scroller.new ft fb h) ts hwf hh hl
    (Nat.le_refl ft) (by simp [Scroller.new]; omega)
  exact ⟨this.2.2.2.1, this.2.2.2.2⟩

/-- Witness for C3 at a concrete scroller and call sequence. -/
theorem scroller_invariant_witness :
    (∀ n ∈ [300, 100, 319], n ≤ 320 - 0 - 0) ∧
    0 ≤ (scrollMany envOK (Scroller.new 0 0 320, TS.init)
      [300, 100, 319]).1.top_offset ∧
    (scrollMany envOK (Scroller.new 0 0 320, TS.init)
      [300, 100, 319]).1.top_offset ≤ 320 - 0 :=
  ⟨by decide, scroller_invariant 0 0 320 [300, 100, 319] envOK TS.init
    (by norm_num) (by norm_num) (by decide)⟩

/-- C4 counterexample: for the scroller state with `top_offset = 90`,
`height = 100`, no fixed lines, advancing by `n = 65535` makes the sum
`90 + 65535` exceed `height - fixed_bottom_lines`, so the claim's formula
prescribes `0 + (90 + 65535 + 0 - 100) = 65525`; the code's `u16`
addition wraps (a debug build would panic) and yields 89 instead. -/
theorem scroll_formula_counterexample :
    100 - 0 < 90 + 65535 ∧
    (ILI9486.scroll_vertically ⟨90, 0, 0, 100⟩ 65535
      envOK TS.init).2.1.top_offset = 89 ∧
    (ILI9486.scroll_vertically ⟨90, 0, 0, 100⟩ 65535
      envOK TS.init).2.1.top_offset ≠ 0 + (90 + 65535 + 0 - 100) := by decide

/-- C4 (amended): for every scroller state with `fixed_top_lines ≤
height`, `fixed_bottom_lines ≤ height`, `height < 2^16` and NO `u16`
OVERFLOW in the advance (`top_offset + n + fixed_bottom_lines < 2^16`;
for larger values the `u16` arithmetic wraps, see the counterexample),
`scroll_vertically` sets `top_offset` to the old value plus `n`, or to
`fixed_top_lines + (sum + fixed_bottom_lines - height)` when the sum
exceeds `height - fixed_bottom_lines`, and issues one
vertical-scroll-address command whose two argument bytes are the new
offset, big-endian. -/
theorem scroll_step_formula (s : Scroller) (n : Nat) (env : Env) (ts : TS)
    (hft : s.fixed_top_lines ≤ s.height)
    (hfb : s.fixed_bottom_lines ≤ s.height)
    (hh : s.height < 65536)
    (hno : s.top_offset + n + s.fixed_bottom_lines < 65536) :
    (ILI9486.scroll_vertically s n env ts).2.1.top_offset =
      (if s.height - s.fixed_bottom_lines < s.top_offset + n
       then s.fixed_top_lines + (s.top_offset + n + s.fixed_bottom_lines -
         s.height)
       else s.top_offset + n) ∧
    (ILI9486.scroll_vertically s n envOK ts).2.2.trace =
      ts.trace ++ [Ev.cmd 0x37,
        Ev.data8
          [(ILI9486.scroll_vertically s n envOK ts).2.1.top_offset / 256,
           (ILI9486.scroll_vertically s n envOK ts).2.1.top_offset % 256]] ∧
    (ILI9486.scroll_vertically s n envOK ts).1 = Except.ok () := by
  obtain ⟨t, fb, ft, h⟩ := s
  simp only at hft hfb hh hno
  have key : ∀ e : Env,
      (ILI9486.scroll_vertically ⟨t, fb, ft, h⟩ n e ts).2.1.top_offset =
        (if h - fb < t + n then ft + (t + n + fb - h) else t + n) := by
    intro e
    simp only [ILI9486.scroll_vertically, wadd16, wsub16]
    split_ifs <;> simp only [] <;> omega
  have hbound : (ILI9486.scroll_vertically ⟨t, fb, ft, h⟩ n envOK
      ts).2.1.top_offset < 65536 := by
    rw [key envOK]; split_ifs <;> omega
  refine ⟨key env, ?_, ?_⟩
  · have hshape : (ILI9486.scroll_vertically ⟨t, fb, ft, h⟩ n envOK
        ts).2.2.trace =
        ts.trace ++ [Ev.cmd 0x37,
          Ev.data8
            [u16hi (ILI9486.scroll_vertically ⟨t, fb, ft, h⟩ n envOK
               ts).2.1.top_offset,
             u16lo (ILI9486.scroll_vertically ⟨t, fb, ft, h⟩ n envOK
               ts).2.1.top_offset]] := by
      simp only [ILI9486.scroll_vertically, command_envOK, Command.code]
    rw [hshape, u16hi_eq _ hbound, u16lo_eq]
  · simp only [ILI9486.scroll_vertically, command_envOK, Command.code]

/-- Witness for C4 at the claim's own example: height 100, no fixed
lines, offset 90, advance 20: the wrap yields 10, and the command bytes
are [0, 10]. -/
theorem scroll_step_formula_witness :
    (ILI9486.scroll_vertically ⟨90, 0, 0, 100⟩ 20
      envOK TS.init).2.1.top_offset = 10 ∧
    (ILI9486.scroll_vertically ⟨90, 0, 0, 100⟩ 20
      envOK TS.init).2.2.trace = [Ev.cmd 0x37, Ev.data8 [0, 10]] := by
  have h := scroll_step_formula ⟨90, 0, 0, 100⟩ 20 envOK TS.init
    (by norm_num) (by norm_num) (by norm_num) (by norm_num)
  exact ⟨h.1.trans (by norm_num), h.2.1.trans (by decide)⟩

end ILI9486V
